import Mathlib

/-!
Verification development for the panashcat messaging server.

The repository consists of near-duplicate iterations of one socket.io chat
server backed by two PostgreSQL tables.  We shallowly embed the store and the
socket handlers of the iterations the specification is written from:

* `ServerJs`  — the first iteration of `src/server.js` (lines 1-289);
* `Part000`   — the iteration of `src/unnamed/part_000`;
* `Part003A`  — the first iteration of `src/unnamed/part_003` (lines 1-230,
  roster-gated login, single global table, select-then-delete);
* `Part003B`  — the second iteration of `src/unnamed/part_003` (lines 230-523,
  history ordered by `timestamp`).

Rows, envelopes and handlers keep the source field names.  Timestamps are
`Int` seconds (`Math.floor(Date.now() / 1000)` is passed in as `now`), ids are
`Nat` assigned by the `SERIAL` counters carried in the `Store`.
-/

namespace Panashcat

/-- A row of the `messages` table (global scope): `id SERIAL PRIMARY KEY,
user_name TEXT, text TEXT, timestamp BIGINT, reply_to_id INTEGER,
message_type TEXT DEFAULT 'text'` (src/server.js lines 50-59). -/
structure GlobalRow where
  id : Nat
  user_name : String
  text : String
  timestamp : Int
  reply_to_id : Option Int
  message_type : String
deriving Repr, DecidableEq

/-- A row of the `direct_messages` table (direct scope): `id SERIAL PRIMARY
KEY, sender TEXT, receiver TEXT, text TEXT, timestamp BIGINT, reply_to_id
INTEGER, message_type TEXT DEFAULT 'text'` (src/server.js lines 62-72). -/
structure DirectRow where
  id : Nat
  sender : String
  receiver : String
  text : String
  timestamp : Int
  reply_to_id : Option Int
  message_type : String
deriving Repr, DecidableEq

/-- The persistence store: the two tables plus the `SERIAL` counters that
assign the next id of each table (PostgreSQL sequences start at 1). -/
structure Store where
  messages : List GlobalRow
  direct_messages : List DirectRow
  nextGlobalId : Nat
  nextDirectId : Nat
deriving Repr, DecidableEq

/-- Insert into `messages ... RETURNING id` (src/server.js lines 208-211). -/
def Store.insertGlobal (s : Store) (user_name txt : String) (ts : Int)
    (reply : Option Int) (mtype : String) : Store × Nat :=
  let row : GlobalRow :=
    { id := s.nextGlobalId, user_name := user_name, text := txt,
      timestamp := ts, reply_to_id := reply, message_type := mtype }
  ({ s with messages := s.messages ++ [row], nextGlobalId := s.nextGlobalId + 1 },
   s.nextGlobalId)

/-- Insert into `direct_messages ... RETURNING id` (src/server.js 226-229). -/
def Store.insertDirect (s : Store) (sender receiver txt : String) (ts : Int)
    (reply : Option Int) (mtype : String) : Store × Nat :=
  let row : DirectRow :=
    { id := s.nextDirectId, sender := sender, receiver := receiver, text := txt,
      timestamp := ts, reply_to_id := reply, message_type := mtype }
  ({ s with direct_messages := s.direct_messages ++ [row],
            nextDirectId := s.nextDirectId + 1 },
   s.nextDirectId)

/-- The normalized client-facing message shape built by the handlers
(`id, user, text, timestamp, replyTo, type, isPrivate, receiver`); the exact
JSON key of the reply id (`replyTo` vs `reply_to_id`) drifts between
iterations, the content does not. -/
structure Envelope where
  id : Nat
  user : String
  text : String
  timestamp : Int
  replyTo : Option Int
  type : String
  isPrivate : Bool
  receiver : Option String
deriving Repr, DecidableEq

/-- The row shape of the part_003 history queries, which rename columns in
SQL (`user_name AS user`, `message_type AS type`). -/
structure HistRow where
  id : Nat
  user : String
  text : String
  timestamp : Int
  reply_to_id : Option Int
  type : String
deriving Repr, DecidableEq

/-- Delivery target of a socket.io emission: `io.emit` (all connections),
`io.to(room).emit`, or `socket.emit` (the calling connection). -/
inductive Target where
  | all
  | room (name : String)
  | caller
deriving Repr, DecidableEq

/-- The outbound event payloads the embedded handlers produce. -/
inductive Payload where
  | loginSuccess (u : String)
  | loginCallback (ok : Bool)
  | updateUserList (l : List (String × Bool))
  | updateUserNames (l : List String)
  | chatHistory (history : List Envelope) (context : String)
  | chatHistoryRows (rows : List HistRow)
  | chatMessage (msg : Envelope)
  | messageDeleted (id : Nat)
  | chatCleared
  | systemMessage (msg : String)
deriving Repr, DecidableEq

/-- One emission: a target and a payload. -/
abbrev Emit := Target × Payload

/-- Live-connection state: `socket.username` per connected socket id, the
socket.io room memberships, and the `onlineUsers` JS `Set` (kept as a
duplicate-free list in insertion order, as `Array.from` would list it). -/
structure Registry where
  bindings : List (Nat × String)
  rooms : List (Nat × String)
  online : List String
deriving Repr, DecidableEq

/-- Assign `socket.username = u` for socket `c` (replacing any prior value). -/
def setAssoc (l : List (Nat × String)) (c : Nat) (u : String) :
    List (Nat × String) :=
  (c, u) :: l.filter (fun p => decide (p.1 ≠ c))

/-- Read `socket.username` of socket `c`. -/
def lookupAssoc (l : List (Nat × String)) (c : Nat) : Option String :=
  match l with
  | [] => none
  | (c', u) :: rest => if c' = c then some u else lookupAssoc rest c

/-- JS `Set.add`: a no-op when the element is already present. -/
def insertSet (u : String) (l : List String) : List String :=
  if u ∈ l then l else l ++ [u]

/-- JS `Set.delete` (on a duplicate-free list). -/
def eraseSet (u : String) (l : List String) : List String :=
  l.filter (fun v => decide (v ≠ u))

/-- `socket.join(room)`: socket.io room membership is a set; joining twice is
a no-op, and joining never leaves previously joined rooms. -/
def joinRoom (rooms : List (Nat × String)) (c : Nat) (name : String) :
    List (Nat × String) :=
  if (c, name) ∈ rooms then rooms else rooms ++ [(c, name)]

/-- A dynamically typed SQL value, for embedding parameter binding. -/
inductive SqlValue where
  | int (i : Int)
  | text (s : String)
deriving Repr, DecidableEq

/-- SQL `>` on values: comparing a BIGINT with a TEXT value is a type error,
which PostgreSQL reports for the statement as a whole. -/
def sqlGt : SqlValue → SqlValue → Except String Bool
  | SqlValue.int a, SqlValue.int b => Except.ok (decide (b < a))
  | SqlValue.text a, SqlValue.text b => Except.ok (decide (b < a))
  | _, _ => Except.error "operator does not exist: bigint > text"

/-- SQL `=` on values, same typing discipline as `sqlGt`. -/
def sqlEqv : SqlValue → SqlValue → Except String Bool
  | SqlValue.int a, SqlValue.int b => Except.ok (decide (a = b))
  | SqlValue.text a, SqlValue.text b => Except.ok (decide (a = b))
  | _, _ => Except.error "operator does not exist: text = bigint"

/-- Relation `ORDER BY id ASC` on global rows. -/
def gIdLe (a b : GlobalRow) : Prop := a.id ≤ b.id

instance : DecidableRel gIdLe := fun a b => inferInstanceAs (Decidable (a.id ≤ b.id))
instance : IsTotal GlobalRow gIdLe := ⟨fun a b => Nat.le_total a.id b.id⟩
instance : IsTrans GlobalRow gIdLe := ⟨fun _ _ _ => Nat.le_trans⟩

/-- Relation `ORDER BY id ASC` on direct rows. -/
def dIdLe (a b : DirectRow) : Prop := a.id ≤ b.id

instance : DecidableRel dIdLe := fun a b => inferInstanceAs (Decidable (a.id ≤ b.id))
instance : IsTotal DirectRow dIdLe := ⟨fun a b => Nat.le_total a.id b.id⟩
instance : IsTrans DirectRow dIdLe := ⟨fun _ _ _ => Nat.le_trans⟩

/-- Relation `ORDER BY timestamp ASC` on global rows (part_003 queries). -/
def gTsLe (a b : GlobalRow) : Prop := a.timestamp ≤ b.timestamp

instance : DecidableRel gTsLe := fun a b => inferInstanceAs (Decidable (a.timestamp ≤ b.timestamp))
instance : IsTotal GlobalRow gTsLe := ⟨fun a b => Int.le_total a.timestamp b.timestamp⟩
instance : IsTrans GlobalRow gTsLe := ⟨fun _ _ _ => Int.le_trans⟩

/-- `ORDER BY id ASC` for the `messages` table. -/
def sortGlobalById (l : List GlobalRow) : List GlobalRow := l.insertionSort gIdLe

/-- `ORDER BY id ASC` for the `direct_messages` table. -/
def sortDirectById (l : List DirectRow) : List DirectRow := l.insertionSort dIdLe

/-- `ORDER BY timestamp ASC` for the `messages` table. -/
def sortGlobalByTs (l : List GlobalRow) : List GlobalRow := l.insertionSort gTsLe

/-- A propositional all-elements predicate on lists (used to state retention
facts without a visible binder). -/
def ListAll {α : Type} (p : α → Prop) : List α → Prop
  | [] => True
  | x :: xs => p x ∧ ListAll p xs

namespace ServerJs

/-- The per-connection state the handlers consult: `socket.username` is unset
until a successful `login`. -/
structure Socket where
  username : Option String
deriving Repr, DecidableEq

/-- `ALL_USERS` (src/server.js line 31): the fixed sidebar roster used only
for display by `broadcastUserList`; it does not gate login. -/
def ALL_USERS : List String := ["Rafa", "Hugo", "Sergio", "Álvaro"]

/-- `broadcastUserList` payload (src/server.js lines 100-107): each fixed
user annotated with membership in `onlineUsers`. -/
def userList (online : List String) : List (String × Bool) :=
  ALL_USERS.map (fun u => (u, online.contains u))

/-- The `login` handler (src/server.js lines 116-134): rejects a falsy
username (`if (!username) return`), otherwise sets `socket.username`, joins
the personal room, adds to `onlineUsers`, acks the caller and broadcasts the
user list.  It neither leaves previously joined rooms nor removes a
previously bound identity from `onlineUsers`. -/
def login (c : Nat) (username : Option String) (reg : Registry) :
    Registry × List Emit :=
  match username with
  | none => (reg, [])
  | some u =>
    if u = "" then (reg, [])
    else
      let reg' : Registry :=
        { bindings := setAssoc reg.bindings c u
          rooms := joinRoom reg.rooms c u
          online := insertSet u reg.online }
      (reg', [(Target.caller, Payload.loginSuccess u),
              (Target.all, Payload.updateUserList (userList reg'.online))])

/-- The `disconnect` handler (src/server.js lines 276-283) together with the
transport-level cleanup socket.io performs (the socket leaves all rooms and
its binding disappears): if the socket had a username, that identity is
deleted from `onlineUsers` outright and the user list is re-broadcast. -/
def disconnect (c : Nat) (reg : Registry) : Registry × List Emit :=
  let u? := lookupAssoc reg.bindings c
  let base : Registry :=
    { bindings := reg.bindings.filter (fun p => decide (p.1 ≠ c))
      rooms := reg.rooms.filter (fun p => decide (p.1 ≠ c))
      online := reg.online }
  match u? with
  | none => (base, [])
  | some u =>
    let reg' := { base with online := eraseSet u base.online }
    (reg', [(Target.all, Payload.updateUserList (userList reg'.online))])

/-- A registry event: a `login` request or a transport disconnect. -/
inductive REvent where
  | login (c : Nat) (u : Option String)
  | disconnect (c : Nat)
deriving Repr, DecidableEq

/-- The registry effect of one event. -/
def step (reg : Registry) : REvent → Registry
  | REvent.login c u => (login c u reg).1
  | REvent.disconnect c => (disconnect c reg).1

/-- Run a sequence of registry events. -/
def run (reg : Registry) (evs : List REvent) : Registry := evs.foldl step reg

/-- Global-history row set of `join_chat` (src/server.js lines 148-151):
`SELECT * FROM messages WHERE timestamp > $1 ORDER BY id ASC` with
`$1 = now - 86400 * 30`. -/
def globalHistoryRows (now : Int) (s : Store) : List GlobalRow :=
  sortGlobalById (s.messages.filter (fun r => decide (now - 86400 * 30 < r.timestamp)))

/-- The global history row-to-envelope mapping (src/server.js lines 154-162). -/
def globalToEnvelope (r : GlobalRow) : Envelope :=
  { id := r.id, user := r.user_name, text := r.text, timestamp := r.timestamp,
    replyTo := r.reply_to_id, type := r.message_type, isPrivate := false,
    receiver := none }

/-- The envelope list `join_chat` sends for `target === 'global'`. -/
def globalHistory (now : Int) (s : Store) : List Envelope :=
  (globalHistoryRows now s).map globalToEnvelope

/-- The direct history row-to-envelope mapping (src/server.js lines 176-185). -/
def directToEnvelope (r : DirectRow) : Envelope :=
  { id := r.id, user := r.sender, text := r.text, timestamp := r.timestamp,
    replyTo := r.reply_to_id, type := r.message_type, isPrivate := true,
    receiver := some r.receiver }

/-- The WHERE clause of the direct-history query of `join_chat`
(src/server.js lines 168-174): `timestamp > $1 AND ((sender=$1 AND
receiver=$2) OR (sender=$2 AND receiver=$1))`, evaluated against the
parameter vector `[socket.username, target]` the handler actually passes.
`$1` is therefore the author name (TEXT), yet it is also compared with the
BIGINT `timestamp` column, so the condition is ill-typed. -/
def directCondV1 (username target : String) (r : DirectRow) : Except String Bool := do
  let p1 := SqlValue.text username
  let p2 := SqlValue.text target
  let c0 ← sqlGt (SqlValue.int r.timestamp) p1
  let c1 ← sqlEqv (SqlValue.text r.sender) p1
  let c2 ← sqlEqv (SqlValue.text r.receiver) p2
  let c3 ← sqlEqv (SqlValue.text r.sender) p2
  let c4 ← sqlEqv (SqlValue.text r.receiver) p1
  pure (c0 && ((c1 && c2) || (c3 && c4)))

/-- The direct-history query of `join_chat` (src/server.js lines 168-174).
PostgreSQL resolves parameter types for the whole statement before scanning
rows; `$1` is used in both a BIGINT and a TEXT position, so the statement is
rejected (the first line embeds that statement-level resolution of
`timestamp > $1`), and the per-row condition reproduces the same error. -/
def queryDirectHistoryV1 (username target : String) (s : Store) :
    Except String (List DirectRow) := do
  let _ ← sqlGt (SqlValue.int 0) (SqlValue.text username)
  let rows ← s.direct_messages.filterM (fun r => directCondV1 username target r)
  pure (sortDirectById rows)

/-- The `join_chat` handler (src/server.js lines 137-194): guard on
`socket.username`; for `'global'` emit the mapped global history to the
caller; otherwise run the direct query — whose failure is caught and logged,
emitting nothing. -/
def joinChat (sock : Socket) (target : String) (now : Int) (s : Store) :
    List Emit :=
  match sock.username with
  | none => []
  | some me =>
    if me = "" then []
    else if target = "global" then
      [(Target.caller, Payload.chatHistory (globalHistory now s) target)]
    else
      match queryDirectHistoryV1 me target s with
      | Except.ok rows =>
        [(Target.caller, Payload.chatHistory (rows.map directToEnvelope) target)]
      | Except.error _ => []

/-- The `chat_message` payload `{ text, type, replyTo, target }`. -/
structure MsgData where
  text : String
  type : String
  replyTo : Option Int
  target : String
deriving Repr, DecidableEq

/-- The `chat_message` handler (src/server.js lines 197-249): guard on
`socket.username`; insert into the table selected by `target`, then fan the
envelope out — `io.emit` for global, the two personal rooms for direct. -/
def chatMessage (sock : Socket) (data : MsgData) (now : Int) (s : Store) :
    Store × List Emit :=
  match sock.username with
  | none => (s, [])
  | some me =>
    if me = "" then (s, [])
    else if data.target = "global" then
      let (s', newId) := s.insertGlobal me data.text now data.replyTo data.type
      let msg : Envelope :=
        { id := newId, user := me, text := data.text, timestamp := now,
          replyTo := data.replyTo, type := data.type, isPrivate := false,
          receiver := none }
      (s', [(Target.all, Payload.chatMessage msg)])
    else
      let (s', newId) := s.insertDirect me data.target data.text now data.replyTo data.type
      let msg : Envelope :=
        { id := newId, user := me, text := data.text, timestamp := now,
          replyTo := data.replyTo, type := data.type, isPrivate := true,
          receiver := some data.target }
      (s', [(Target.room data.target, Payload.chatMessage msg),
            (Target.room me, Payload.chatMessage msg)])

/-- The `delete_message` handler (src/server.js lines 251-261): two
conditional deletes keyed by `(id, author)` — `DELETE FROM messages WHERE
id=$1 AND user_name=$2` and `DELETE FROM direct_messages WHERE id=$1 AND
sender=$2` — followed by an unconditional `io.emit('message_deleted', id)`.
There is no authentication guard; an unset `socket.username` reaches SQL as
NULL, which matches no row. -/
def deleteMessage (sock : Socket) (mid : Nat) (s : Store) : Store × List Emit :=
  let s' : Store :=
    { s with
      messages := s.messages.filter
        (fun r => !(decide (r.id = mid) && decide (some r.user_name = sock.username)))
      direct_messages := s.direct_messages.filter
        (fun r => !(decide (r.id = mid) && decide (some r.sender = sock.username))) }
  (s', [(Target.all, Payload.messageDeleted mid)])

/-- The `clear_chat` handler (src/server.js lines 263-269): guard on
`socket.username`, then `DELETE FROM messages` (the global table only) and
two broadcasts. -/
def clearChat (sock : Socket) (s : Store) : Store × List Emit :=
  match sock.username with
  | none => (s, [])
  | some me =>
    if me = "" then (s, [])
    else
      ({ s with messages := [] },
       [(Target.all, Payload.chatCleared),
        (Target.all, Payload.systemMessage (me ++ " ha limpiado el chat global."))])

end ServerJs

namespace Part000

/-- The WHERE condition of the private-history query of part_000
(lines 129-135): `timestamp > $1 AND ((sender=$2 AND receiver=$3) OR
(sender=$3 AND receiver=$2))` with `$1 = now - 1209600`, `$2 = me`,
`$3 = target`. -/
def directPairCond (limit : Int) (me target : String) (r : DirectRow) : Bool :=
  decide (limit < r.timestamp) &&
    ((r.sender == me && r.receiver == target) ||
     (r.sender == target && r.receiver == me))

/-- The private-history row mapping of part_000 (lines 137-146), including
the `row.message_type || 'text'` fallback. -/
def p0DirectToEnvelope (r : DirectRow) : Envelope :=
  { id := r.id, user := r.sender, text := r.text, timestamp := r.timestamp,
    replyTo := r.reply_to_id,
    type := if r.message_type = "" then "text" else r.message_type,
    isPrivate := true, receiver := some r.receiver }

/-- The private-history envelope list of the part_000 `join chat` handler
(lines 126-147): two-week window, direction-agnostic pair match,
`ORDER BY id ASC`. -/
def directHistory (now : Int) (me target : String) (s : Store) : List Envelope :=
  (sortDirectById (s.direct_messages.filter
    (fun r => directPairCond (now - 1209600) me target r))).map p0DirectToEnvelope

end Part000

/-- Relation `ORDER BY timestamp ASC` on direct rows (part_003 pair query). -/
def dTsLe (a b : DirectRow) : Prop := a.timestamp ≤ b.timestamp

instance : DecidableRel dTsLe := fun a b => inferInstanceAs (Decidable (a.timestamp ≤ b.timestamp))
instance : IsTotal DirectRow dTsLe := ⟨fun a b => Int.le_total a.timestamp b.timestamp⟩
instance : IsTrans DirectRow dTsLe := ⟨fun _ _ _ => Int.le_trans⟩

/-- `ORDER BY timestamp ASC` for the `direct_messages` table. -/
def sortDirectByTs (l : List DirectRow) : List DirectRow := l.insertionSort dTsLe

/-- The row shape of the part_003 private history query (second iteration,
lines 372-379), which renames `sender AS user` and `message_type AS type`,
also selects `receiver`, and whose handler tags each row `isPrivate: true`
before emitting. -/
structure DHistRow where
  id : Nat
  user : String
  text : String
  timestamp : Int
  reply_to_id : Option Int
  type : String
  receiver : String
  isPrivate : Bool
deriving Repr, DecidableEq

namespace Part003

/-- The column renaming of the part_003 history queries:
`SELECT id, user_name AS user, text, timestamp, reply_to_id,
message_type AS type FROM messages`. -/
def globalHistRow (r : GlobalRow) : HistRow :=
  { id := r.id, user := r.user_name, text := r.text, timestamp := r.timestamp,
    reply_to_id := r.reply_to_id, type := r.message_type }

/-- The global history of the part_003 iterations (second iteration,
lines 362-367): `WHERE timestamp >= $1 ORDER BY timestamp ASC` with
`$1 = now - 1209600` — ordered by timestamp, not id. -/
def globalHistory (now : Int) (s : Store) : List HistRow :=
  (sortGlobalByTs (s.messages.filter
    (fun r => decide (now - 1209600 ≤ r.timestamp)))).map globalHistRow

/-- The WHERE condition of the part_003 private pair query (second iteration,
lines 372-379): `timestamp >= $1 AND ((sender = $2 AND receiver = $3) OR
(sender = $3 AND receiver = $2))` with `$1 = now - 1209600`, `$2 = me`,
`$3 = target`. -/
def directPairCond (limit : Int) (me target : String) (r : DirectRow) : Bool :=
  decide (limit ≤ r.timestamp) &&
    ((r.sender == me && r.receiver == target) ||
     (r.sender == target && r.receiver == me))

/-- The column renaming plus the `isPrivate: true` tagging the part_003
second-iteration handler applies to each private history row. -/
def directHistRow (r : DirectRow) : DHistRow :=
  { id := r.id, user := r.sender, text := r.text, timestamp := r.timestamp,
    reply_to_id := r.reply_to_id, type := r.message_type, receiver := r.receiver,
    isPrivate := true }

/-- The private pair history of the part_003 second iteration (lines
372-383): two-week window, direction-agnostic pair match,
`ORDER BY timestamp ASC` — ordered by timestamp, not id. -/
def directHistory (now : Int) (me target : String) (s : Store) : List DHistRow :=
  (sortDirectByTs (s.direct_messages.filter
    (fun r => directPairCond (now - 1209600) me target r))).map directHistRow

end Part003

namespace Part003A

/-- `allowedUsers` (part_003 line 20): the fixed login roster of the
part_003 iterations. -/
def allowedUsers : List String := ["Rafa", "Hugo", "Sergio", "Álvaro"]

/-- The part_003 first-iteration `login` handler (lines 75-102): the
identity must be on `allowedUsers`; on success it binds the username, acks
`callback(true)`, adds to `onlineUsers`, broadcasts the user list and a
system message, and sends the global history; otherwise it only acks
`callback(false)`. -/
def login (c : Nat) (username : String) (reg : Registry) (s : Store) (now : Int) :
    Registry × List Emit :=
  if username ∈ allowedUsers then
    let reg' : Registry :=
      { bindings := setAssoc reg.bindings c username
        rooms := reg.rooms
        online := insertSet username reg.online }
    (reg', [(Target.caller, Payload.loginCallback true),
            (Target.all, Payload.updateUserNames reg'.online),
            (Target.all, Payload.systemMessage (username ++ " se ha unido.")),
            (Target.caller, Payload.chatHistoryRows (Part003.globalHistory now s))])
  else
    (reg, [(Target.caller, Payload.loginCallback false)])

end Part003A

/-! Concrete fixtures used by the witnesses and counterexamples. -/

/-- The empty store, with both `SERIAL` sequences at 1. -/
def emptyStore : Store :=
  { messages := [], direct_messages := [], nextGlobalId := 1, nextDirectId := 1 }

/-- A fixed clock value (seconds). -/
def now0 : Int := 1700000000

/-- Payload of a direct message from Ann to Bob. -/
def annToBobData : ServerJs.MsgData :=
  { text := "hola Bob", type := "text", replyTo := none, target := "Bob" }

/-- Payload of a global message from Ann. -/
def annGlobalData : ServerJs.MsgData :=
  { text := "hello", type := "text", replyTo := none, target := "global" }

/-- The store after authenticated Ann sends `annToBobData` (scope direct). -/
def c1store : Store :=
  (ServerJs.chatMessage ⟨some "Ann"⟩ annToBobData now0 emptyStore).1

/-- The direct row that send creates: id 1, Ann to Bob. -/
def c1row : DirectRow :=
  { id := 1, sender := "Ann", receiver := "Bob", text := "hola Bob",
    timestamp := now0, reply_to_id := none, message_type := "text" }

/-- The store after authenticated Ann sends `annGlobalData` (scope global). -/
def c6store : Store :=
  (ServerJs.chatMessage ⟨some "Ann"⟩ annGlobalData now0 emptyStore).1

/-- A global message authored by Ann, id 1. -/
def annGlobalRow : GlobalRow :=
  { id := 1, user_name := "Ann", text := "hola", timestamp := now0,
    reply_to_id := none, message_type := "text" }

/-- A direct message authored by Bob that shares id 1 with `annGlobalRow`
(the two tables have independent sequences, so ids collide). -/
def bobDirectRow : DirectRow :=
  { id := 1, sender := "Bob", receiver := "Ann", text := "dm de Bob",
    timestamp := now0, reply_to_id := none, message_type := "text" }

/-- Store holding Ann's global message and Bob's direct message, both id 1. -/
def c3store : Store :=
  { messages := [annGlobalRow], direct_messages := [bobDirectRow],
    nextGlobalId := 2, nextDirectId := 2 }

/-- Store holding only Ann's global message. -/
def c4store : Store :=
  { messages := [annGlobalRow], direct_messages := [],
    nextGlobalId := 2, nextDirectId := 1 }

/-- Global row inserted first (id 1) but carrying the later timestamp. -/
def rowTsLate : GlobalRow :=
  { id := 1, user_name := "Ann", text := "a", timestamp := 2000,
    reply_to_id := none, message_type := "text" }

/-- Global row inserted second (id 2) but carrying the earlier timestamp. -/
def rowTsEarly : GlobalRow :=
  { id := 2, user_name := "Bob", text := "b", timestamp := 1000,
    reply_to_id := none, message_type := "text" }

/-- Store whose id order disagrees with its timestamp order. -/
def c5store : Store :=
  { messages := [rowTsLate, rowTsEarly], direct_messages := [],
    nextGlobalId := 3, nextDirectId := 1 }

/-- Clock for the `c5store` reads (both rows are inside every window). -/
def now5 : Int := 2000

/-- The empty registry. -/
def reg0 : Registry := { bindings := [], rooms := [], online := [] }

/-- Registry after identity X logs in on sockets 1 and 2 and socket 1
disconnects. -/
def c7reg : Registry :=
  ServerJs.run reg0
    [ServerJs.REvent.login 1 (some "X"), ServerJs.REvent.login 2 (some "X"),
     ServerJs.REvent.disconnect 1]

/-- Registry after socket 1 logs in as X and then re-logs-in as Y. -/
def c8reg : Registry :=
  (ServerJs.login 1 (some "Y") (ServerJs.login 1 (some "X") reg0).1).1

end Panashcat

/-! Helper lemmas shared by the claim theorems. -/

namespace Panashcat

/-- Unfolding of `ListAll` into ordinary bounded quantification. -/
theorem listAll_iff {α : Type} (p : α → Prop) (l : List α) :
    ListAll p l ↔ ∀ x ∈ l, p x := by
  induction l with
  | nil => simp [ListAll]
  | cons x xs ih => simp [ListAll, ih]

/-- Sorting by id does not change membership. -/
theorem mem_sortGlobalById {r : GlobalRow} {l : List GlobalRow} :
    r ∈ sortGlobalById l ↔ r ∈ l := by
  unfold sortGlobalById
  exact (List.perm_insertionSort gIdLe l).mem_iff

/-- Sorting by id does not change membership. -/
theorem mem_sortDirectById {r : DirectRow} {l : List DirectRow} :
    r ∈ sortDirectById l ↔ r ∈ l := by
  unfold sortDirectById
  exact (List.perm_insertionSort dIdLe l).mem_iff

/-- Sorting by timestamp does not change membership. -/
theorem mem_sortGlobalByTs {r : GlobalRow} {l : List GlobalRow} :
    r ∈ sortGlobalByTs l ↔ r ∈ l := by
  unfold sortGlobalByTs
  exact (List.perm_insertionSort gTsLe l).mem_iff

/-- Sorting by timestamp does not change membership. -/
theorem mem_sortDirectByTs {r : DirectRow} {l : List DirectRow} :
    r ∈ sortDirectByTs l ↔ r ∈ l := by
  unfold sortDirectByTs
  exact (List.perm_insertionSort dTsLe l).mem_iff

/-- `Set.add` makes its argument a member. -/
theorem mem_insertSet_self (u : String) (l : List String) : u ∈ insertSet u l := by
  unfold insertSet; split
  · assumption
  · simp

/-- `Set.add` keeps all prior members. -/
theorem mem_insertSet_of_mem {v : String} (u : String) {l : List String}
    (h : v ∈ l) : v ∈ insertSet u l := by
  unfold insertSet; split
  · exact h
  · exact List.mem_append_left _ h

/-- `Set.delete` removes its argument. -/
theorem not_mem_eraseSet_self (u : String) (l : List String) :
    u ∉ eraseSet u l := by
  simp [eraseSet, List.mem_filter]

/-- `socket.join` makes the socket a member of the room. -/
theorem mem_joinRoom_self (rooms : List (Nat × String)) (c : Nat) (name : String) :
    (c, name) ∈ joinRoom rooms c name := by
  unfold joinRoom; split
  · assumption
  · simp

/-- `socket.join` keeps all prior room memberships. -/
theorem mem_joinRoom_of_mem {p : Nat × String} (rooms : List (Nat × String))
    (c : Nat) (name : String) (h : p ∈ rooms) : p ∈ joinRoom rooms c name := by
  unfold joinRoom; split
  · exact h
  · exact List.mem_append_left _ h

/-- A stored global row inside the retention window appears (as its envelope)
in the server.js global history read. -/
theorem mem_globalHistory {now : Int} {s : Store} {r : GlobalRow}
    (hm : r ∈ s.messages) (ht : now - 86400 * 30 < r.timestamp) :
    ServerJs.globalToEnvelope r ∈ ServerJs.globalHistory now s := by
  unfold ServerJs.globalHistory ServerJs.globalHistoryRows
  exact List.mem_map_of_mem _
    (mem_sortGlobalById.mpr (List.mem_filter.mpr ⟨hm, by simpa using ht⟩))

/-- A stored direct row inside the retention window appears (as its envelope)
in the part_000 pair history read for its own sender/receiver pair. -/
theorem mem_part000_directHistory {now : Int} {s : Store} {r : DirectRow}
    (hm : r ∈ s.direct_messages) (ht : now - 1209600 < r.timestamp) :
    Part000.p0DirectToEnvelope r ∈ Part000.directHistory now r.sender r.receiver s := by
  unfold Part000.directHistory
  refine List.mem_map_of_mem _ (mem_sortDirectById.mpr (List.mem_filter.mpr ⟨hm, ?_⟩))
  simp [Part000.directPairCond, ht]

/-! Claim theorems. -/

/-- Claim C1 (evaluation at the failing input).  After authenticated Ann sends
a direct message to Bob, the server.js `join_chat` read for the pair returns
nothing: the direct-history query reuses placeholder 1 for both the BIGINT
timestamp bound and the TEXT sender while binding only two parameters, so the
statement is ill-typed, the error is caught, and no history is emitted.  The
part_000 iteration of the same query (correctly parameterised) does return
the message for the pair and returns nothing for a third identity Cara, and
the message never enters the global history. -/
theorem direct_history_read_fails_on_server_js :
    ServerJs.joinChat ⟨some "Bob"⟩ "Ann" now0 c1store = [] ∧
    ServerJs.queryDirectHistoryV1 "Bob" "Ann" c1store
      = Except.error "operator does not exist: bigint > text" ∧
    Part000.directHistory now0 "Bob" "Ann" c1store
      = [Part000.p0DirectToEnvelope c1row] ∧
    Part000.directHistory now0 "Cara" "Ann" c1store = [] ∧
    ServerJs.globalHistory now0 c1store = [] :=
  ⟨rfl, rfl, rfl, rfl, rfl⟩

/-- Claim C2.  For every prior store state, `clear_chat` issued by an
authenticated identity removes every row of the global table and leaves the
direct table unchanged. -/
theorem clearChat_wipes_global_keeps_direct (s : Store) (u : String) (h : u ≠ "") :
    (ServerJs.clearChat ⟨some u⟩ s).1.messages = [] ∧
    (ServerJs.clearChat ⟨some u⟩ s).1.direct_messages = s.direct_messages := by
  simp [ServerJs.clearChat, h]

/-- Claim C2, witness: `clearChat_wipes_global_keeps_direct` applied to a
concrete store and identity. -/
theorem clearChat_wipes_global_keeps_direct_witness :
    (ServerJs.clearChat ⟨some "Ann"⟩ c3store).1.messages = [] ∧
    (ServerJs.clearChat ⟨some "Ann"⟩ c3store).1.direct_messages = c3store.direct_messages :=
  clearChat_wipes_global_keeps_direct c3store "Ann" (by decide)

/-- Claim C3, counterexample.  `m` is Ann's global message with id 1 and Bob
is not its author, yet Bob's delete request for id 1 removes a row: Bob's own
direct message, which shares id 1 because the two tables have independent
SERIAL sequences.  This refutes the claim that such a request removes no row
from either table. -/
theorem delete_for_foreign_id_can_remove_own_row :
    annGlobalRow.user_name ≠ "Bob" ∧
    bobDirectRow ∈ c3store.direct_messages ∧
    bobDirectRow ∉ (ServerJs.deleteMessage ⟨some "Bob"⟩ annGlobalRow.id c3store).1.direct_messages := by
  decide

/-- Claim C3 as amended.  For every store, a delete request for message `m`'s
id issued by `D` distinct from `m`'s author never removes `m` itself: `m`
stays in its table with all fields identical, and a subsequent history read
of `m`'s scope (the server.js global read, respectively the part_000 pair
read for direct scope) still returns `m`'s envelope. -/
theorem delete_by_nonauthor_preserves_target_message
    (s : Store) (D : String) (now : Int) (m : GlobalRow ⊕ DirectRow)
    (hmem : m.elim (fun r => r ∈ s.messages) (fun r => r ∈ s.direct_messages))
    (hauth : m.elim (fun r => r.user_name ≠ D) (fun r => r.sender ≠ D))
    (hret : m.elim (fun r => now - 86400 * 30 < r.timestamp)
                   (fun r => now - 1209600 < r.timestamp)) :
    m.elim
      (fun r => r ∈ (ServerJs.deleteMessage ⟨some D⟩ r.id s).1.messages ∧
        ServerJs.globalToEnvelope r ∈
          ServerJs.globalHistory now (ServerJs.deleteMessage ⟨some D⟩ r.id s).1)
      (fun r => r ∈ (ServerJs.deleteMessage ⟨some D⟩ r.id s).1.direct_messages ∧
        Part000.p0DirectToEnvelope r ∈
          Part000.directHistory now r.sender r.receiver (ServerJs.deleteMessage ⟨some D⟩ r.id s).1) := by
  cases m with
  | inl r =>
    simp only [Sum.elim_inl] at hmem hauth hret ⊢
    have hkeep : r ∈ (ServerJs.deleteMessage ⟨some D⟩ r.id s).1.messages := by
      simp only [ServerJs.deleteMessage]
      exact List.mem_filter.mpr ⟨hmem, by simp [hauth]⟩
    exact ⟨hkeep, mem_globalHistory hkeep hret⟩
  | inr r =>
    simp only [Sum.elim_inr] at hmem hauth hret ⊢
    have hkeep : r ∈ (ServerJs.deleteMessage ⟨some D⟩ r.id s).1.direct_messages := by
      simp only [ServerJs.deleteMessage]
      exact List.mem_filter.mpr ⟨hmem, by simp [hauth]⟩
    exact ⟨hkeep, mem_part000_directHistory hkeep hret⟩

/-- Claim C3 (amended), witness: the theorem applied to Ann's global message
and deleter Bob in the concrete id-collision store. -/
theorem delete_by_nonauthor_preserves_target_message_witness :
    annGlobalRow ∈ (ServerJs.deleteMessage ⟨some "Bob"⟩ annGlobalRow.id c3store).1.messages ∧
    ServerJs.globalToEnvelope annGlobalRow ∈
      ServerJs.globalHistory now0 (ServerJs.deleteMessage ⟨some "Bob"⟩ annGlobalRow.id c3store).1 :=
  delete_by_nonauthor_preserves_target_message c3store "Bob" now0 (Sum.inl annGlobalRow)
    (show annGlobalRow ∈ c3store.messages from by decide)
    (show annGlobalRow.user_name ≠ "Bob" from by decide)
    (show now0 - 86400 * 30 < annGlobalRow.timestamp from by decide)

/-- Claim C4, counterexample.  Bob's delete request for Ann's message matches
no row of either table (the store only holds Ann's global message, and Bob is
not its author), yet server.js still broadcasts `message_deleted` to all
connections — the operation is a store no-op but not silent. -/
theorem delete_without_match_still_broadcasts :
    (ServerJs.deleteMessage ⟨some "Bob"⟩ 1 c4store).1 = c4store ∧
    (Target.all, Payload.messageDeleted 1) ∈ (ServerJs.deleteMessage ⟨some "Bob"⟩ 1 c4store).2 := by
  decide

/-- Claim C4 as amended.  When the `(id, author)` condition matches no row of
either table, the store is unchanged — but a `message_deleted` broadcast to
all connections is emitted regardless. -/
theorem delete_without_match_is_store_noop_with_broadcast
    (s : Store) (D : String) (mid : Nat)
    (h1 : ∀ r ∈ s.messages, ¬(r.id = mid ∧ r.user_name = D))
    (h2 : ∀ r ∈ s.direct_messages, ¬(r.id = mid ∧ r.sender = D)) :
    ServerJs.deleteMessage ⟨some D⟩ mid s
      = (s, [(Target.all, Payload.messageDeleted mid)]) := by
  have hg : s.messages.filter
      (fun r => !(decide (r.id = mid) && decide (some r.user_name = some D))) = s.messages := by
    refine List.filter_eq_self.mpr (fun a ha => ?_)
    have h := h1 a ha
    by_cases hid : a.id = mid <;> by_cases hu : a.user_name = D <;>
      simp [hid, hu] at h ⊢
  have hd : s.direct_messages.filter
      (fun r => !(decide (r.id = mid) && decide (some r.sender = some D))) = s.direct_messages := by
    refine List.filter_eq_self.mpr (fun a ha => ?_)
    have h := h2 a ha
    by_cases hid : a.id = mid <;> by_cases hu : a.sender = D <;>
      simp [hid, hu] at h ⊢
  have hun : ServerJs.deleteMessage ⟨some D⟩ mid s =
      ({ s with
          messages := s.messages.filter
            (fun r => !(decide (r.id = mid) && decide (some r.user_name = some D)))
          direct_messages := s.direct_messages.filter
            (fun r => !(decide (r.id = mid) && decide (some r.sender = some D))) },
       [(Target.all, Payload.messageDeleted mid)]) := rfl
  rw [hun, hg, hd]

/-- Claim C4 (amended), witness: the theorem applied to Bob's unmatched
delete request in the concrete store. -/
theorem delete_without_match_is_store_noop_with_broadcast_witness :
    ServerJs.deleteMessage ⟨some "Bob"⟩ 1 c4store
      = (c4store, [(Target.all, Payload.messageDeleted 1)]) :=
  delete_without_match_is_store_noop_with_broadcast c4store "Bob" 1 (by decide) (by decide)

/-- Claim C5, counterexample.  In the part_003 iterations history is ordered
by timestamp, not id: on a store whose insertion (id) order disagrees with
its timestamp order, the returned rows have decreasing ids. -/
theorem part003_history_not_sorted_by_id :
    ¬ List.Pairwise (fun a b : HistRow => a.id ≤ b.id) (Part003.globalHistory now5 c5store) := by
  decide

/-- Claim C5 as amended, covering every history read of the modelled
iterations, for every store, clock and identity pair.  The reads using
`ORDER BY id ASC` — the server.js global read and the part_000 private pair
read — return rows non-decreasing in id, inside their retention windows
(strictly newer than `now - 30 days`, respectively strictly newer than
`now - 2 weeks`).  The part_003 reads — global and private pair — use
`ORDER BY timestamp ASC`: their rows are non-decreasing in timestamp (ids
may decrease, see the counterexample) and at least `now - 2 weeks` old at
most.  The remaining read, the server.js direct read, returns no row list at
all for any input (the C1 parameter slip), so no envelope list exists there
for the claim to constrain. -/
theorem histories_sorted_by_key_within_window
    (s : Store) (now : Int) (me target : String) :
    List.Pairwise (fun a b => a.id ≤ b.id) (ServerJs.globalHistory now s) ∧
    ListAll (fun e => now - 86400 * 30 < e.timestamp) (ServerJs.globalHistory now s) ∧
    ServerJs.queryDirectHistoryV1 me target s
      = Except.error "operator does not exist: bigint > text" ∧
    List.Pairwise (fun a b => a.id ≤ b.id) (Part000.directHistory now me target s) ∧
    ListAll (fun e => now - 1209600 < e.timestamp) (Part000.directHistory now me target s) ∧
    List.Pairwise (fun a b => a.timestamp ≤ b.timestamp) (Part003.globalHistory now s) ∧
    ListAll (fun e => now - 1209600 ≤ e.timestamp) (Part003.globalHistory now s) ∧
    List.Pairwise (fun a b => a.timestamp ≤ b.timestamp) (Part003.directHistory now me target s) ∧
    ListAll (fun e => now - 1209600 ≤ e.timestamp) (Part003.directHistory now me target s) := by
  refine ⟨?_, ?_, rfl, ?_, ?_, ?_, ?_, ?_, ?_⟩
  · unfold ServerJs.globalHistory ServerJs.globalHistoryRows sortGlobalById
    exact List.pairwise_map.mpr (List.sorted_insertionSort gIdLe _)
  · rw [listAll_iff]
    intro e he
    unfold ServerJs.globalHistory ServerJs.globalHistoryRows at he
    obtain ⟨r, hr, rfl⟩ := List.mem_map.mp he
    have hf := List.of_mem_filter (mem_sortGlobalById.mp hr)
    simpa [ServerJs.globalToEnvelope] using hf
  · unfold Part000.directHistory sortDirectById
    exact List.pairwise_map.mpr (List.sorted_insertionSort dIdLe _)
  · rw [listAll_iff]
    intro e he
    unfold Part000.directHistory at he
    obtain ⟨r, hr, rfl⟩ := List.mem_map.mp he
    have hf := List.of_mem_filter (mem_sortDirectById.mp hr)
    simp only [Part000.directPairCond, Bool.and_eq_true, decide_eq_true_eq] at hf
    simpa [Part000.p0DirectToEnvelope] using hf.1
  · unfold Part003.globalHistory sortGlobalByTs
    exact List.pairwise_map.mpr (List.sorted_insertionSort gTsLe _)
  · rw [listAll_iff]
    intro e he
    unfold Part003.globalHistory at he
    obtain ⟨r, hr, rfl⟩ := List.mem_map.mp he
    have hf := List.of_mem_filter (mem_sortGlobalByTs.mp hr)
    simpa [Part003.globalHistRow] using hf
  · unfold Part003.directHistory sortDirectByTs
    exact List.pairwise_map.mpr (List.sorted_insertionSort dTsLe _)
  · rw [listAll_iff]
    intro e he
    unfold Part003.directHistory at he
    obtain ⟨r, hr, rfl⟩ := List.mem_map.mp he
    have hf := List.of_mem_filter (mem_sortDirectByTs.mp hr)
    simp only [Part003.directPairCond, Bool.and_eq_true, decide_eq_true_eq] at hf
    simpa [Part003.directHistRow] using hf.1

/-- Claim C6 (evaluation at the failing input, plus the global half).  A
global create followed by an immediate global read returns exactly the
envelope of the submitted message, with the store-assigned id 1 — and the
create's own broadcast carries that same envelope.  A direct create followed
by an immediate direct read of the same pair, however, returns nothing in
server.js: the read fails with the C1 parameter slip. -/
theorem roundTrip_global_ok_direct_read_fails :
    ServerJs.globalHistory now0 c6store =
      [{ id := 1, user := "Ann", text := "hello", timestamp := now0,
         replyTo := none, type := "text", isPrivate := false, receiver := none }] ∧
    (ServerJs.chatMessage ⟨some "Ann"⟩ annGlobalData now0 emptyStore).2 =
      [(Target.all, Payload.chatMessage
        { id := 1, user := "Ann", text := "hello", timestamp := now0,
          replyTo := none, type := "text", isPrivate := false, receiver := none })] ∧
    ServerJs.joinChat ⟨some "Ann"⟩ "Bob" now0 c1store = [] :=
  ⟨rfl, rfl, rfl⟩

/-- Claim C7, counterexample.  After identity X logs in on sockets 1 and 2
and socket 1 disconnects, X still has a live bound connection (socket 2) but
is absent from `onlineUsers`: the presence set does not equal the set of
identities with at least one live connection. -/
theorem presence_set_diverges_from_live_connections :
    ¬ (∀ u : String, u ∈ c7reg.online ↔ ∃ c, (c, u) ∈ c7reg.bindings) := by
  intro h
  have hx : "X" ∈ c7reg.online := (h "X").mpr ⟨2, by decide⟩
  exact absurd hx (by decide)

/-- Claim C7 as amended.  From every prior registry state, after identity `u`
registers on two distinct connections it is present, but as soon as either
one of them unregisters, `u` is removed from `onlineUsers` outright — even
though the other connection is still bound to `u`. -/
theorem unregister_one_connection_takes_identity_offline
    (reg : Registry) (c1 c2 : Nat) (u : String)
    (hne : c1 ≠ c2) (hu : u ≠ "") :
    u ∈ (ServerJs.run reg
      [ServerJs.REvent.login c1 (some u), ServerJs.REvent.login c2 (some u)]).online ∧
    (c2, u) ∈ (ServerJs.run reg
      [ServerJs.REvent.login c1 (some u), ServerJs.REvent.login c2 (some u),
       ServerJs.REvent.disconnect c1]).bindings ∧
    u ∉ (ServerJs.run reg
      [ServerJs.REvent.login c1 (some u), ServerJs.REvent.login c2 (some u),
       ServerJs.REvent.disconnect c1]).online := by
  have h21 : c2 ≠ c1 := fun e => hne e.symm
  have L : ∀ (c : Nat) (r : Registry), (ServerJs.login c (some u) r).1 =
      { bindings := setAssoc r.bindings c u
        rooms := joinRoom r.rooms c u
        online := insertSet u r.online } := by
    intro c r
    simp [ServerJs.login, hu]
  have hrun2 : ServerJs.run reg
      [ServerJs.REvent.login c1 (some u), ServerJs.REvent.login c2 (some u)] =
      { bindings := setAssoc (setAssoc reg.bindings c1 u) c2 u
        rooms := joinRoom (joinRoom reg.rooms c1 u) c2 u
        online := insertSet u (insertSet u reg.online) } := by
    simp only [ServerJs.run, List.foldl, ServerJs.step]
    rw [L c1 reg, L c2 _]
  have hlook : lookupAssoc (setAssoc (setAssoc reg.bindings c1 u) c2 u) c1 = some u := by
    simp only [setAssoc]
    rw [List.filter_cons_of_pos (by simp [hne])]
    simp [lookupAssoc, h21]
  have hrun3 : ServerJs.run reg
      [ServerJs.REvent.login c1 (some u), ServerJs.REvent.login c2 (some u),
       ServerJs.REvent.disconnect c1] =
      (ServerJs.disconnect c1 (ServerJs.run reg
        [ServerJs.REvent.login c1 (some u), ServerJs.REvent.login c2 (some u)])).1 := by
    simp only [ServerJs.run, List.foldl, ServerJs.step]
  refine ⟨?_, ?_, ?_⟩
  · rw [hrun2]
    exact mem_insertSet_self u _
  · rw [hrun3, hrun2]
    simp only [ServerJs.disconnect, hlook]
    refine List.mem_filter.mpr ⟨by simp [setAssoc], by simp [h21]⟩
  · rw [hrun3, hrun2]
    simp only [ServerJs.disconnect, hlook]
    exact not_mem_eraseSet_self u _

/-- Claim C7 (amended), witness: the theorem applied to identity X on
sockets 1 and 2 starting from the empty registry. -/
theorem unregister_one_connection_takes_identity_offline_witness :
    "X" ∈ (ServerJs.run reg0
      [ServerJs.REvent.login 1 (some "X"), ServerJs.REvent.login 2 (some "X")]).online ∧
    (2, "X") ∈ (ServerJs.run reg0
      [ServerJs.REvent.login 1 (some "X"), ServerJs.REvent.login 2 (some "X"),
       ServerJs.REvent.disconnect 1]).bindings ∧
    "X" ∉ (ServerJs.run reg0
      [ServerJs.REvent.login 1 (some "X"), ServerJs.REvent.login 2 (some "X"),
       ServerJs.REvent.disconnect 1]).online :=
  unregister_one_connection_takes_identity_offline reg0 1 2 "X" (by decide) (by decide)

/-- Claim C8, counterexample.  Socket 1 logs in as X and then as Y: it is
bound to Y, but it is still a member of X's personal room and X is still in
`onlineUsers`, although no connection is bound to X any more — refuting the
claim that re-registration first removes the prior bindings. -/
theorem relogin_keeps_prior_bindings_concrete :
    lookupAssoc c8reg.bindings 1 = some "Y" ∧
    (1, "X") ∈ c8reg.rooms ∧
    "X" ∈ c8reg.online := by
  decide

/-- Claim C8 as amended.  Re-registering a connection under a new identity Y
binds it to Y and joins Y's room, without removing anything: the connection
stays in X's personal room and X stays in the presence set. -/
theorem relogin_adds_bindings_without_removing
    (reg : Registry) (c : Nat) (X Y : String)
    (hY : Y ≠ "") (hroom : (c, X) ∈ reg.rooms) (hon : X ∈ reg.online) :
    lookupAssoc (ServerJs.login c (some Y) reg).1.bindings c = some Y ∧
    (c, Y) ∈ (ServerJs.login c (some Y) reg).1.rooms ∧
    (c, X) ∈ (ServerJs.login c (some Y) reg).1.rooms ∧
    X ∈ (ServerJs.login c (some Y) reg).1.online ∧
    Y ∈ (ServerJs.login c (some Y) reg).1.online := by
  have L : (ServerJs.login c (some Y) reg).1 =
      { bindings := setAssoc reg.bindings c Y
        rooms := joinRoom reg.rooms c Y
        online := insertSet Y reg.online } := by
    simp [ServerJs.login, hY]
  rw [L]
  exact ⟨by simp [setAssoc, lookupAssoc], mem_joinRoom_self _ _ _,
         mem_joinRoom_of_mem _ _ _ hroom, mem_insertSet_of_mem _ hon,
         mem_insertSet_self _ _⟩

/-- Claim C8 (amended), witness: the theorem applied to socket 1 after it
logged in as X, re-registering as Y. -/
theorem relogin_adds_bindings_without_removing_witness :
    lookupAssoc (ServerJs.login 1 (some "Y") (ServerJs.login 1 (some "X") reg0).1).1.bindings 1 = some "Y" ∧
    (1, "Y") ∈ (ServerJs.login 1 (some "Y") (ServerJs.login 1 (some "X") reg0).1).1.rooms ∧
    (1, "X") ∈ (ServerJs.login 1 (some "Y") (ServerJs.login 1 (some "X") reg0).1).1.rooms ∧
    "X" ∈ (ServerJs.login 1 (some "Y") (ServerJs.login 1 (some "X") reg0).1).1.online ∧
    "Y" ∈ (ServerJs.login 1 (some "Y") (ServerJs.login 1 (some "X") reg0).1).1.online :=
  relogin_adds_bindings_without_removing (ServerJs.login 1 (some "X") reg0).1 1 "X" "Y"
    (by decide) (by decide) (by decide)

/-- Claim C9, counterexample.  "Mallory" is a non-empty identity, yet the
part_003 login rejects it with `callback(false)` and binds nothing: login is
validated against the fixed roster there, refuting the claim that any
non-empty string authenticates and that no roster exists. -/
theorem nonroster_login_rejected_in_part003 :
    "Mallory" ≠ "" ∧
    Part003A.login 7 "Mallory" reg0 emptyStore now0
      = (reg0, [(Target.caller, Payload.loginCallback false)]) ∧
    lookupAssoc (Part003A.login 7 "Mallory" reg0 emptyStore now0).1.bindings 7 = none := by
  decide

/-- Claim C9 as amended.  In server.js, an absent or empty identity makes
login a complete no-op, and any non-empty identity is bound and acknowledged
with no directory check; in the part_003 iterations the identity must belong
to the fixed `allowedUsers` roster — a non-roster identity is rejected with
only `callback(false)`, a roster identity is bound. -/
theorem login_validation_per_variant
    (reg regA : Registry) (s : Store) (now : Int) (c : Nat) (u : String) :
    ServerJs.login c none reg = (reg, []) ∧
    ServerJs.login c (some "") reg = (reg, []) ∧
    (u ≠ "" →
      lookupAssoc (ServerJs.login c (some u) reg).1.bindings c = some u ∧
      (Target.caller, Payload.loginSuccess u) ∈ (ServerJs.login c (some u) reg).2) ∧
    (u ∉ Part003A.allowedUsers →
      Part003A.login c u regA s now = (regA, [(Target.caller, Payload.loginCallback false)])) ∧
    ("Rafa" ∈ Part003A.allowedUsers ∧
      lookupAssoc (Part003A.login c "Rafa" regA s now).1.bindings c = some "Rafa") := by
  refine ⟨rfl, rfl, fun hu => ⟨?_, ?_⟩, fun hns => ?_, ⟨by decide, ?_⟩⟩
  · simp [ServerJs.login, hu, setAssoc, lookupAssoc]
  · simp [ServerJs.login, hu]
  · simp [Part003A.login, hns]
  · simp only [Part003A.login]
    rw [if_pos (by decide)]
    simp [setAssoc, lookupAssoc]

/-- Claim C9 (amended), witness: the theorem applied to socket 7 with the
non-roster identity Ann and the roster identity Rafa. -/
theorem login_validation_per_variant_witness :
    ServerJs.login 7 none reg0 = (reg0, []) ∧
    lookupAssoc (ServerJs.login 7 (some "Ann") reg0).1.bindings 7 = some "Ann" ∧
    Part003A.login 7 "Ann" reg0 emptyStore now0
      = (reg0, [(Target.caller, Payload.loginCallback false)]) ∧
    lookupAssoc (Part003A.login 7 "Rafa" reg0 emptyStore now0).1.bindings 7 = some "Rafa" := by
  have h := login_validation_per_variant reg0 reg0 emptyStore now0 7 "Ann"
  exact ⟨h.1, (h.2.2.1 (by decide)).1, h.2.2.2.1 (by decide), h.2.2.2.2.2⟩

/-- Claim C10.  For a connection with no identity bound, the `join_chat`,
`chat_message` and `clear_chat` handlers are complete no-ops: the store is
unchanged and no event is emitted to any connection. -/
theorem unauthenticated_handlers_are_noops
    (s : Store) (target : String) (d : ServerJs.MsgData) (now : Int) :
    ServerJs.joinChat ⟨none⟩ target now s = [] ∧
    ServerJs.chatMessage ⟨none⟩ d now s = (s, []) ∧
    ServerJs.clearChat ⟨none⟩ s = (s, []) :=
  ⟨rfl, rfl, rfl⟩

end Panashcat
